import Mathlib

/-!
Verification development for the banned-books Google Trends collection script
(`scripts/script.py`).  The core routine `get_trends_data(book_title,
ban_date_str, retries)` parses an event date, computes two 90-day windows
around it, fetches a search-interest series for each window from the
pytrends provider (with a retry loop and fixed sleeps), reduces each series
to summary statistics, derives change metrics, and returns a result
dictionary (or `None` when the date does not parse, or when `retries = 0`).

The shallow embedding below models:
  - the parsed calendar date and `datetime.strptime(s, "%Y-%m-%d")` success;
  - date arithmetic on a day-number line (`timedelta(days=k)` is `+ k`);
  - the provider as a function from attempt index and timeframe to an
    outcome (raise / empty frame or missing column / non-empty data);
  - numpy reductions `mean`, `max`, `min`, `std` (population standard
    deviation) over exact rationals — Python float arithmetic is idealised
    as exact rational arithmetic, and the single irrational operation,
    the square root inside `np.std`, lands in `Real`;
  - Python `round(x, 2)` as round-half-to-even at two decimal places;
  - the result dictionary as a record with `Option` fields (a `None`
    value for a key that is absent or set to Python `None`);
  - the observable side effects needed by the claims — provider requests
    made and `time.sleep` durations — as an accumulated `Trace`.

Python local variables `before_values` / `after_values` are assigned only
in the non-empty branch of each window and persist across iterations of
the retry loop of a single call; the engine state `EngineSt` models this.
Referencing an unassigned local at the `all_values` line raises a
`NameError`, which the generic `except Exception` handler of the retry
loop catches like any provider error.
-/

/-- Calendar date fields. A `ban_date_str` in the script is a `YYYY-MM-DD`
text; we model the text by its three numeric fields (tokenisation of the
string itself is not modelled), and `strptime` below models whether
`datetime.strptime(s, "%Y-%m-%d")` succeeds on it. -/
structure Date where
  year : ℕ
  month : ℕ
  day : ℕ
deriving DecidableEq, Repr

/-- Gregorian leap-year rule, as used by `datetime`. -/
def isLeap (y : ℕ) : Bool :=
  (y % 4 == 0 && y % 100 != 0) || y % 400 == 0

/-- Number of days of month `m` of year `y`. -/
def daysInMonth (y m : ℕ) : ℕ :=
  if m = 2 then (if isLeap y then 29 else 28)
  else if m = 4 ∨ m = 6 ∨ m = 9 ∨ m = 11 then 30
  else 31

/-- Models `datetime.strptime(ban_date_str, "%Y-%m-%d")` (script line 73):
`some` of the parsed date when the fields form a real calendar date in
`datetime`'s supported range, `none` when parsing raises (the bare
`except:` of lines 74-76 then makes `get_trends_data` return `None`). -/
def strptime (s : Date) : Option Date :=
  if 1 ≤ s.year ∧ s.year ≤ 9999 ∧ 1 ≤ s.month ∧ s.month ≤ 12 ∧
     1 ≤ s.day ∧ s.day ≤ daysInMonth s.year s.month
  then some s else none

/-- Day number of a date (days-from-civil, proleptic Gregorian): converts a
calendar date to a point on the day line, so that `timedelta(days=k)`
arithmetic becomes integer addition. -/
def toDays (dt : Date) : ℤ :=
  let y : ℕ := if dt.month ≤ 2 then dt.year - 1 else dt.year
  let era : ℕ := y / 400
  let yoe : ℕ := y % 400
  let mp : ℕ := (dt.month + 9) % 12
  let doy : ℕ := (153 * mp + 2) / 5 + dt.day - 1
  let doe : ℕ := yoe * 365 + yoe / 4 - yoe / 100 + doy
  (era : ℤ) * 146097 + (doe : ℤ) - 719468

/-- Window computation of script lines 79-86: given the event day number,
the before window `[t - 90, t - 1]` and the after window `[t + 1, t + 90]`
(both endpoints inclusive, as in the pytrends timeframe text). -/
def compute_windows (t : ℤ) : (ℤ × ℤ) × (ℤ × ℤ) :=
  ((t - 90, t - 1), (t + 1, t + 90))

/-- Mean of a list of rationals, `np.mean` on a non-empty array. -/
def npMean (l : List ℚ) : ℚ := l.sum / l.length

/-- Maximum of a non-empty list, `np.max`. On `[]` the numpy call raises;
`processWindow` below guards that case, so the `[]` equation is junk. -/
def npMax : List ℚ → ℚ
  | [] => 0
  | v :: vs => vs.foldl max v

/-- Minimum of a non-empty list, `np.min`. Same guard remark as `npMax`. -/
def npMin : List ℚ → ℚ
  | [] => 0
  | v :: vs => vs.foldl min v

/-- Population variance, the square of `np.std` (numpy default `ddof=0`). -/
def npVar (l : List ℚ) : ℚ :=
  npMean (l.map (fun x => (x - npMean l) ^ 2))

/-- Standard deviation `np.std` of a non-empty array: the square root of
the population variance. The square root is the one genuinely irrational
operation of the script, hence the `Real` codomain. -/
noncomputable def npStd (l : List ℚ) : ℝ :=
  Real.sqrt ((npVar l : ℚ) : ℝ)

/-- Volatility of script line 137:
`np.std(all_values) if len(all_values) > 0 else 0`. -/
noncomputable def computeVolatility (all_values : List ℚ) : ℝ :=
  if all_values.length > 0 then npStd all_values else 0

/-- Python `round(q, 2)` idealised over exact rationals: round half to even
at two decimal places. -/
def pyRound2 (q : ℚ) : ℚ :=
  let y : ℚ := q * 100
  let f : ℤ := Int.floor y
  let r : ℚ := y - (f : ℚ)
  let n : ℤ :=
    if r < 1 / 2 then f
    else if 1 / 2 < r then f + 1
    else if f % 2 = 0 then f else f + 1
  (n : ℚ) / 100

/-- Python `round(x, 2)` on a real value (used for the volatility, whose
exact value is irrational): round half to even at two decimal places. -/
noncomputable def pyRound2R (x : ℝ) : ℝ :=
  let y : ℝ := x * 100
  let f : ℤ := Int.floor y
  let r : ℝ := y - (f : ℝ)
  let n : ℤ :=
    if r < 1 / 2 then f
    else if 1 / 2 < r then f + 1
    else if f % 2 = 0 then f else f + 1
  (n : ℝ) / 100

/-- Value space of `percent_change`: a finite rational or the
`float("inf")` sentinel of script line 132. -/
inductive PyFloat where
  | num (q : ℚ)
  | inf
deriving DecidableEq, Repr

/-- Python `round(percent_change, 2)`: `round(float("inf"), 2)` returns
infinity unchanged. -/
def pyRoundPC : PyFloat → PyFloat
  | .num q => .num (pyRound2 q)
  | .inf => .inf

/-- Change metrics of script lines 128-133, from the two window averages:
`(percent_change, absolute_change)`. -/
def computeChanges (before_avg after_avg : ℚ) : PyFloat × ℚ :=
  if before_avg > 0 then
    (.num (((after_avg - before_avg) / before_avg) * 100), after_avg - before_avg)
  else
    ((if after_avg = 0 then .num 0 else .inf), after_avg)

/-- Outcome of one provider fetch (the `build_payload` +
`interest_over_time` pair for one timeframe):
  - `raise msg`: the provider call raises an exception with text `msg`;
  - `empty`: the returned frame is empty, or lacks the book-title column
    (the script treats both identically, lines 104 and 119);
  - `data vals`: the frame is non-empty and has the column; `vals` are the
    column values (non-empty for a real non-empty frame; the unreachable
    `[]` case is mapped to the numpy zero-size reduction error). -/
inductive FetchOutcome where
  | raise (msg : String)
  | empty
  | data (vals : List ℚ)
deriving DecidableEq, Repr

/-- Summary statistics of one window (script lines 106-108 / 121-123, or
the zero defaults of lines 110 / 125). -/
structure WindowStats where
  avg : ℚ
  max : ℚ
  min : ℚ
deriving DecidableEq, Repr

/-- Error text standing for the numpy `ValueError` raised by a zero-size
reduction (unreachable for frames coming from a real provider). -/
def zeroSizeError : String := "zero-size array to reduction operation"

/-- Error text standing for `str(e)` of the `NameError` raised at script
line 136 when `before_values` was never assigned (quote characters of the
Python message are omitted). -/
def nameErrorBefore : String := "NameError: name before_values is not defined"

/-- Error text standing for the `NameError` raised at script line 136 when
`after_values` was never assigned. -/
def nameErrorAfter : String := "NameError: name after_values is not defined"

/-- Processing of one window inside the `try` block: from the fetch
outcome, either an exception (`error`) or the window statistics together
with the value list to assign to the window's `_values` local (`none` when
the empty branch ran and the local is left untouched). -/
def processWindow : FetchOutcome → Except String (WindowStats × Option (List ℚ))
  | .raise e => .error e
  | .empty => .ok ({ avg := 0, max := 0, min := 0 }, none)
  | .data [] => .error zeroSizeError
  | .data (v :: vs) =>
      .ok ({ avg := npMean (v :: vs), max := npMax (v :: vs), min := npMin (v :: vs) },
           some (v :: vs))

/-- The Python locals `before_values` and `after_values` of one call:
assigned only by the non-empty branch of a window, and persisting across
iterations of the retry loop (the `for` loop shares the function scope). -/
structure EngineSt where
  before_values : Option (List ℚ)
  after_values : Option (List ℚ)
deriving DecidableEq, Repr

/-- The result dictionary of `get_trends_data` as a record. `Option`
fields model dictionary values that are `None` on the failure variant;
`error` models the key that is present only on the failure variant. -/
structure TrendsRecord where
  book_title : String
  ban_date : Date
  avg_search_before : Option ℚ
  avg_search_after : Option ℚ
  max_search_before : Option ℚ
  max_search_after : Option ℚ
  min_search_before : Option ℚ
  min_search_after : Option ℚ
  percent_change : Option PyFloat
  absolute_change : Option ℚ
  volatility : Option ℝ
  data_collected : String
  collection_successful : Bool
  error : Option String

/-- Failure dictionary of script lines 163-178: every numeric field is
`None`, `collection_successful` is `False`, and the error text is
attached. -/
def failureRecord (book : String) (ds : Date) (now e : String) : TrendsRecord :=
  { book_title := book
    ban_date := ds
    avg_search_before := none
    avg_search_after := none
    max_search_before := none
    max_search_after := none
    min_search_before := none
    min_search_after := none
    percent_change := none
    absolute_change := none
    volatility := none
    data_collected := now
    collection_successful := false
    error := some e }

/-- Success dictionary of script lines 141-155, built from the two window
statistics and the two pooled value lists: averages, `percent_change`,
`absolute_change` and volatility are rounded to two decimal places;
maxima and minima are stored as computed. -/
noncomputable def mkSuccessRecord (book : String) (ds : Date) (now : String)
    (bst ast : WindowStats) (before_values after_values : List ℚ) : TrendsRecord :=
  let all_values := before_values ++ after_values
  let pc := computeChanges bst.avg ast.avg
  { book_title := book
    ban_date := ds
    avg_search_before := some (pyRound2 bst.avg)
    avg_search_after := some (pyRound2 ast.avg)
    max_search_before := some bst.max
    max_search_after := some ast.max
    min_search_before := some bst.min
    min_search_after := some ast.min
    percent_change := some (pyRoundPC pc.1)
    absolute_change := some (pyRound2 pc.2)
    volatility := some (pyRound2R (computeVolatility all_values))
    data_collected := now
    collection_successful := true
    error := none }

/-- Observable side effects of one call: the timeframes of the provider
requests made (in order, a raising request included), and the
`time.sleep` durations in order (12 between the two fetches of an
attempt, 20 before a retry). -/
structure Trace where
  fetches : List (ℤ × ℤ)
  sleeps : List ℕ
deriving DecidableEq, Repr

/-- Empty trace. -/
def emptyTrace : Trace := { fetches := [], sleeps := [] }

/-- One iteration of the retry loop (the `try` block, script lines 90-155):
fetch and summarise the before window, sleep 12, fetch and summarise the
after window, derive the metrics, pool `before_values ++ after_values`
(raising `NameError` when a local is unassigned) and build the success
dictionary. Returns the updated locals, the trace of this attempt, and
either the success record or the exception text caught by the
`except Exception` handler. -/
noncomputable def runAttempt (wb wa : ℤ × ℤ) (fb fa : FetchOutcome)
    (book : String) (ds : Date) (now : String) (s : EngineSt) :
    EngineSt × Trace × Except String TrendsRecord :=
  match processWindow fb with
  | .error e => (s, { fetches := [wb], sleeps := [] }, .error e)
  | .ok (bst, bassign) =>
    let s1 : EngineSt :=
      { before_values := (match bassign with | some l => some l | none => s.before_values)
        after_values := s.after_values }
    match processWindow fa with
    | .error e => (s1, { fetches := [wb, wa], sleeps := [12] }, .error e)
    | .ok (ast, aassign) =>
      let s2 : EngineSt :=
        { before_values := s1.before_values
          after_values := (match aassign with | some l => some l | none => s1.after_values) }
      match s2.before_values with
      | none => (s2, { fetches := [wb, wa], sleeps := [12] }, .error nameErrorBefore)
      | some bvals =>
        match s2.after_values with
        | none => (s2, { fetches := [wb, wa], sleeps := [12] }, .error nameErrorAfter)
        | some avals =>
          (s2, { fetches := [wb, wa], sleeps := [12] },
           .ok (mkSuccessRecord book ds now bst ast bvals avals))

/-- The retry loop `for attempt in range(retries)` (script lines 89-178),
with the attempt index and the number of iterations still to run. A
successful attempt returns its record; a failed non-final attempt sleeps
20 and retries with the updated locals; a failed final attempt returns the
failure dictionary carrying that attempt's error; an exhausted range
(reachable only with `retries = 0`) falls off the loop, returning `None`. -/
noncomputable def runAttempts (prov : ℕ → ℤ × ℤ → FetchOutcome) (wb wa : ℤ × ℤ)
    (book : String) (ds : Date) (now : String) :
    ℕ → ℕ → EngineSt → Option TrendsRecord × Trace
  | _, 0, _ => (none, emptyTrace)
  | attempt, remaining + 1, s =>
    match runAttempt wb wa (prov attempt wb) (prov attempt wa) book ds now s with
    | (s1, tr, res) =>
      match res with
      | .ok r => (some r, tr)
      | .error e =>
        if remaining = 0 then (some (failureRecord book ds now e), tr)
        else
          match runAttempts prov wb wa book ds now (attempt + 1) remaining s1 with
          | (rest, tr2) =>
            (rest, { fetches := tr.fetches ++ tr2.fetches,
                     sleeps := tr.sleeps ++ 20 :: tr2.sleeps })

/-- The whole of `get_trends_data(book_title, ban_date_str, retries)`
(script lines 58-178), over a provider behaviour `prov` (outcome of the
fetch for a given attempt index and timeframe) and a collection timestamp
`now`. Returns the result dictionary (`none` models Python `None`) and
the trace of provider requests and sleeps. -/
noncomputable def get_trends_data (book : String) (ban_date_str : Date) (retries : ℕ)
    (prov : ℕ → ℤ × ℤ → FetchOutcome) (now : String) :
    Option TrendsRecord × Trace :=
  match strptime ban_date_str with
  | none => (none, emptyTrace)
  | some ban_date =>
    let t := toDays ban_date
    let w := compute_windows t
    runAttempts prov w.1 w.2 book ban_date_str now 0 retries
      { before_values := none, after_values := none }

/-! Helper lemmas about the rounding functions. -/

theorem pyRound2_eq_low (q : ℚ) (n : ℤ) (h1 : (n : ℚ) ≤ q * 100)
    (h2 : q * 100 < (n : ℚ) + 1 / 2) : pyRound2 q = (n : ℚ) / 100 := by
  have hf : Int.floor (q * 100) = n := by
    rw [Int.floor_eq_iff]
    constructor
    · exact_mod_cast h1
    · linarith
  simp only [pyRound2, hf]
  have hr : q * 100 - (n : ℚ) < 1 / 2 := by linarith
  rw [if_pos hr]

theorem pyRound2_eq_high (q : ℚ) (n : ℤ) (h1 : (n : ℚ) + 1 / 2 < q * 100)
    (h2 : q * 100 < (n : ℚ) + 1) : pyRound2 q = ((n + 1 : ℤ) : ℚ) / 100 := by
  have hf : Int.floor (q * 100) = n := by
    rw [Int.floor_eq_iff]
    refine ⟨by linarith, by linarith⟩
  simp only [pyRound2, hf]
  have hr1 : ¬ (q * 100 - (n : ℚ) < 1 / 2) := by push_neg; linarith
  have hr2 : 1 / 2 < q * 100 - (n : ℚ) := by linarith
  rw [if_neg hr1, if_pos hr2]

theorem pyRound2R_eq_high (x : ℝ) (n : ℤ) (h1 : (n : ℝ) + 1 / 2 < x * 100)
    (h2 : x * 100 < (n : ℝ) + 1) : pyRound2R x = ((n + 1 : ℤ) : ℝ) / 100 := by
  have hf : Int.floor (x * 100) = n := by
    rw [Int.floor_eq_iff]
    refine ⟨by linarith, by linarith⟩
  simp only [pyRound2R, hf]
  have hr1 : ¬ (x * 100 - (n : ℝ) < 1 / 2) := by push_neg; linarith
  have hr2 : 1 / 2 < x * 100 - (n : ℝ) := by linarith
  rw [if_neg hr1, if_pos hr2]

theorem pyRound2_div100 (m : ℤ) : pyRound2 ((m : ℚ) / 100) = (m : ℚ) / 100 := by
  have hm : ((m : ℚ) / 100) * 100 = (m : ℚ) := by
    field_simp
  have := pyRound2_eq_low ((m : ℚ) / 100) m (by rw [hm]) (by rw [hm]; linarith)
  exact this

theorem pyRound2_shape (q : ℚ) : ∃ m : ℤ, pyRound2 q = (m : ℚ) / 100 := by
  unfold pyRound2
  exact ⟨_, rfl⟩

theorem pyRound2_idem (q : ℚ) : pyRound2 (pyRound2 q) = pyRound2 q := by
  obtain ⟨m, hm⟩ := pyRound2_shape q
  rw [hm, pyRound2_div100]

theorem pyRound2R_div100 (m : ℤ) : pyRound2R ((m : ℝ) / 100) = (m : ℝ) / 100 := by
  have hm : ((m : ℝ) / 100) * 100 = (m : ℝ) := by
    field_simp
  have hf : Int.floor (((m : ℝ) / 100) * 100) = m := by
    rw [hm]
    exact Int.floor_intCast m
  simp only [pyRound2R, hf]
  rw [if_pos (by rw [hm]; norm_num)]

theorem pyRound2R_shape (x : ℝ) : ∃ m : ℤ, pyRound2R x = (m : ℝ) / 100 := by
  unfold pyRound2R
  exact ⟨_, rfl⟩

theorem pyRound2R_idem (x : ℝ) : pyRound2R (pyRound2R x) = pyRound2R x := by
  obtain ⟨m, hm⟩ := pyRound2R_shape x
  rw [hm, pyRound2R_div100]

theorem pyRoundPC_idem (p : PyFloat) : pyRoundPC (pyRoundPC p) = pyRoundPC p := by
  cases p with
  | num q => simp [pyRoundPC, pyRound2_idem]
  | inf => simp [pyRoundPC]

theorem pyRound2_int (n : ℤ) : pyRound2 ((n : ℤ) : ℚ) = (n : ℚ) := by
  have h1 : ((n : ℚ)) * 100 = ((100 * n : ℤ) : ℚ) := by push_cast; ring
  have := pyRound2_eq_low (n : ℚ) (100 * n) (by rw [h1]) (by rw [h1]; push_cast; linarith)
  rw [this]
  push_cast
  field_simp

/-! Helper lemmas about single attempts and the retry loop. -/

theorem runAttempt_raise (wb wa : ℤ × ℤ) (e : String) (fa : FetchOutcome)
    (book : String) (ds : Date) (now : String) (s : EngineSt) :
    runAttempt wb wa (.raise e) fa book ds now s
      = (s, { fetches := [wb], sleeps := [] }, .error e) := rfl

theorem runAttempt_data_data (wb wa : ℤ × ℤ) (b a : ℚ) (bv av : List ℚ)
    (book : String) (ds : Date) (now : String) (s : EngineSt) :
    runAttempt wb wa (.data (b :: bv)) (.data (a :: av)) book ds now s
      = ({ before_values := some (b :: bv), after_values := some (a :: av) },
         { fetches := [wb, wa], sleeps := [12] },
         .ok (mkSuccessRecord book ds now
           { avg := npMean (b :: bv), max := npMax (b :: bv), min := npMin (b :: bv) }
           { avg := npMean (a :: av), max := npMax (a :: av), min := npMin (a :: av) }
           (b :: bv) (a :: av))) := rfl

theorem runAttempt_ok_shape (wb wa : ℤ × ℤ) (fb fa : FetchOutcome)
    (book : String) (ds : Date) (now : String) (s s1 : EngineSt) (tr : Trace)
    (r : TrendsRecord)
    (h : runAttempt wb wa fb fa book ds now s = (s1, tr, Except.ok r)) :
    ∃ bst ast bvals avals, r = mkSuccessRecord book ds now bst ast bvals avals := by
  rcases s with ⟨sbv, sav⟩
  rcases fb with e | _ | bl
  · simp [runAttempt, processWindow] at h
  all_goals {
    rcases fa with e | _ | al
    all_goals try rcases bl with _ | ⟨b, bl⟩
    all_goals try rcases al with _ | ⟨a, al⟩
    all_goals rcases sbv with _ | bs
    all_goals rcases sav with _ | as
    all_goals simp [runAttempt, processWindow] at h
    all_goals exact ⟨_, _, _, _, h.2.2.symm⟩
  }

theorem runAttempts_isSome (prov : ℕ → ℤ × ℤ → FetchOutcome) (wb wa : ℤ × ℤ)
    (book : String) (ds : Date) (now : String) :
    ∀ rem attempt s, 1 ≤ rem →
      ((runAttempts prov wb wa book ds now attempt rem s).1).isSome := by
  intro rem
  induction rem with
  | zero => intro attempt s h; omega
  | succ r ih =>
    intro attempt s _
    rcases hra : runAttempt wb wa (prov attempt wb) (prov attempt wa) book ds now s
      with ⟨s1, tr, res⟩
    rcases res with e | rec
    · by_cases hr : r = 0
      · subst hr
        simp [runAttempts, hra]
      · have h1 : 1 ≤ r := Nat.one_le_iff_ne_zero.mpr hr
        have := ih (attempt + 1) s1 h1
        simp [runAttempts, hra, hr]
        rcases hrec : runAttempts prov wb wa book ds now (attempt + 1) r s1 with ⟨rest, tr2⟩
        rw [hrec] at this
        simpa using this
    · simp [runAttempts, hra]


theorem runAttempts_step_ok (prov : ℕ → ℤ × ℤ → FetchOutcome) (wb wa : ℤ × ℤ)
    (book : String) (ds : Date) (now : String) (attempt rem : ℕ) (s s1 : EngineSt)
    (tr : Trace) (r : TrendsRecord)
    (h : runAttempt wb wa (prov attempt wb) (prov attempt wa) book ds now s = (s1, tr, .ok r)) :
    runAttempts prov wb wa book ds now attempt (rem + 1) s = (some r, tr) := by
  simp only [runAttempts, h]

theorem runAttempts_step_last (prov : ℕ → ℤ × ℤ → FetchOutcome) (wb wa : ℤ × ℤ)
    (book : String) (ds : Date) (now : String) (attempt : ℕ) (s s1 : EngineSt)
    (tr : Trace) (e : String)
    (h : runAttempt wb wa (prov attempt wb) (prov attempt wa) book ds now s = (s1, tr, .error e)) :
    runAttempts prov wb wa book ds now attempt 1 s
      = (some (failureRecord book ds now e), tr) := by
  simp only [runAttempts, h]
  simp

theorem runAttempts_step_retry (prov : ℕ → ℤ × ℤ → FetchOutcome) (wb wa : ℤ × ℤ)
    (book : String) (ds : Date) (now : String) (attempt rem : ℕ) (s s1 : EngineSt)
    (tr : Trace) (e : String)
    (h : runAttempt wb wa (prov attempt wb) (prov attempt wa) book ds now s = (s1, tr, .error e))
    (hrem : rem ≠ 0) :
    runAttempts prov wb wa book ds now attempt (rem + 1) s
      = ((runAttempts prov wb wa book ds now (attempt + 1) rem s1).1,
         { fetches := tr.fetches
             ++ (runAttempts prov wb wa book ds now (attempt + 1) rem s1).2.fetches,
           sleeps := tr.sleeps
             ++ 20 :: (runAttempts prov wb wa book ds now (attempt + 1) rem s1).2.sleeps }) := by
  simp only [runAttempts, h]
  rw [if_neg hrem]

theorem runAttempts_all_raise (prov : ℕ → ℤ × ℤ → FetchOutcome) (wb wa : ℤ × ℤ)
    (book : String) (ds : Date) (now : String) (err : ℕ → String) :
    ∀ rem attempt s, 1 ≤ rem →
      (∀ j, attempt ≤ j → j < attempt + rem → prov j wb = .raise (err j)) →
      runAttempts prov wb wa book ds now attempt rem s
        = (some (failureRecord book ds now (err (attempt + rem - 1))),
           { fetches := List.replicate rem wb, sleeps := List.replicate (rem - 1) 20 }) := by
  intro rem
  induction rem with
  | zero => intro attempt s h; omega
  | succ r ih =>
    intro attempt s _ hraise
    have hb : prov attempt wb = .raise (err attempt) := hraise attempt le_rfl (by omega)
    have hstep : runAttempt wb wa (prov attempt wb) (prov attempt wa) book ds now s
        = (s, { fetches := [wb], sleeps := [] }, .error (err attempt)) := by
      rw [hb, runAttempt_raise]
    by_cases hr : r = 0
    · subst hr
      rw [runAttempts_step_last prov wb wa book ds now attempt s s _ _ hstep]
      simp
    · have hrec := ih attempt.succ s (by omega)
        (fun j hj1 hj2 => hraise j (by omega) (by omega))
      rw [runAttempts_step_retry prov wb wa book ds now attempt r s s _ _ hstep hr]
      rw [Nat.succ_eq_add_one] at hrec
      rw [hrec]
      have h1 : attempt + 1 + r - 1 = attempt + (r + 1) - 1 := by omega
      obtain ⟨r2, rfl⟩ : ∃ r2, r = r2 + 1 := ⟨r - 1, by omega⟩
      rw [h1]
      simp [List.replicate_succ]

theorem runAttempts_raise_then_success (prov : ℕ → ℤ × ℤ → FetchOutcome) (wb wa : ℤ × ℤ)
    (book : String) (ds : Date) (now : String) (err : ℕ → String)
    (b a : ℚ) (bv av : List ℚ) :
    ∀ k rem attempt s, 1 ≤ k → k ≤ rem →
      (∀ j, attempt ≤ j → j < attempt + (k - 1) → prov j wb = .raise (err j)) →
      prov (attempt + k - 1) wb = .data (b :: bv) →
      prov (attempt + k - 1) wa = .data (a :: av) →
      runAttempts prov wb wa book ds now attempt rem s
        = (some (mkSuccessRecord book ds now
             { avg := npMean (b :: bv), max := npMax (b :: bv), min := npMin (b :: bv) }
             { avg := npMean (a :: av), max := npMax (a :: av), min := npMin (a :: av) }
             (b :: bv) (a :: av)),
           { fetches := List.replicate (k - 1) wb ++ [wb, wa],
             sleeps := List.replicate (k - 1) 20 ++ [12] }) := by
  intro k
  induction k with
  | zero => intro rem attempt s hk; omega
  | succ k' ih =>
    intro rem attempt s _ hkr hraise hb ha
    by_cases hk0 : k' = 0
    · subst hk0
      obtain ⟨r, rfl⟩ : ∃ r, rem = r + 1 := ⟨rem - 1, by omega⟩
      have hb1 : prov attempt wb = .data (b :: bv) := by
        have : attempt + 1 - 1 = attempt := by omega
        rw [this] at hb
        exact hb
      have ha1 : prov attempt wa = .data (a :: av) := by
        have : attempt + 1 - 1 = attempt := by omega
        rw [this] at ha
        exact ha
      have hstep : runAttempt wb wa (prov attempt wb) (prov attempt wa) book ds now s
          = ({ before_values := some (b :: bv), after_values := some (a :: av) },
             { fetches := [wb, wa], sleeps := [12] },
             .ok (mkSuccessRecord book ds now
               { avg := npMean (b :: bv), max := npMax (b :: bv), min := npMin (b :: bv) }
               { avg := npMean (a :: av), max := npMax (a :: av), min := npMin (a :: av) }
               (b :: bv) (a :: av))) := by
        rw [hb1, ha1, runAttempt_data_data]
      rw [runAttempts_step_ok prov wb wa book ds now attempt r s _ _ _ hstep]
      simp
    · have hb0 : prov attempt wb = .raise (err attempt) :=
        hraise attempt le_rfl (by omega)
      have hstep : runAttempt wb wa (prov attempt wb) (prov attempt wa) book ds now s
          = (s, { fetches := [wb], sleeps := [] }, .error (err attempt)) := by
        rw [hb0, runAttempt_raise]
      obtain ⟨r, rfl⟩ : ∃ r, rem = r + 1 := ⟨rem - 1, by omega⟩
      have hrec := ih r (attempt + 1) s (by omega) (by omega)
        (fun j hj1 hj2 => hraise j (by omega) (by omega))
        (by have : attempt + 1 + k' - 1 = attempt + (k' + 1) - 1 := by omega
            rw [this]; exact hb)
        (by have : attempt + 1 + k' - 1 = attempt + (k' + 1) - 1 := by omega
            rw [this]; exact ha)
      rw [runAttempts_step_retry prov wb wa book ds now attempt r s s _ _ hstep (by omega)]
      rw [hrec]
      obtain ⟨k2, rfl⟩ : ∃ k2, k' = k2 + 1 := ⟨k' - 1, by omega⟩
      simp [List.replicate_succ]

theorem runAttempts_shape (prov : ℕ → ℤ × ℤ → FetchOutcome) (wb wa : ℤ × ℤ)
    (book : String) (ds : Date) (now : String) :
    ∀ rem attempt s r tr,
      runAttempts prov wb wa book ds now attempt rem s = (some r, tr) →
      (∃ bst ast bvals avals, r = mkSuccessRecord book ds now bst ast bvals avals) ∨
      (∃ e, r = failureRecord book ds now e) := by
  intro rem
  induction rem with
  | zero =>
    intro attempt s r tr h
    simp [runAttempts] at h
  | succ rm ih =>
    intro attempt s r tr h
    rcases hra : runAttempt wb wa (prov attempt wb) (prov attempt wa) book ds now s
      with ⟨s1, tr1, res⟩
    rcases res with e | rec
    · by_cases hrm : rm = 0
      · subst hrm
        rw [runAttempts_step_last prov wb wa book ds now attempt s s1 tr1 e hra] at h
        injection h with h1 h2
        injection h1 with h1
        exact Or.inr ⟨e, h1.symm⟩
      · rw [runAttempts_step_retry prov wb wa book ds now attempt rm s s1 tr1 e hra hrm] at h
        rcases hrec : runAttempts prov wb wa book ds now (attempt + 1) rm s1 with ⟨rest, tr2⟩
        rw [hrec] at h
        injection h with h1 h2
        have h1x : rest = some r := h1
        subst h1x
        exact ih (attempt + 1) s1 r tr2 hrec
    · rw [runAttempts_step_ok prov wb wa book ds now attempt rm s s1 tr1 rec hra] at h
      injection h with h1 h2
      injection h1 with h1
      rcases runAttempt_ok_shape wb wa (prov attempt wb) (prov attempt wa) book ds now
        s s1 tr1 rec hra with ⟨bst, ast, bvals, avals, hr⟩
      exact Or.inl ⟨bst, ast, bvals, avals, h1 ▸ hr⟩

/-! Claim theorems. -/

/-- C1 (corrected): for every call of the collect operation whose event-date
text parses and whose retry budget is at least one, and for every behaviour
of the provider, the call returns a result record (success or failure
variant); the Engine is embedded as a total function, so no exception
escapes its boundary. The claim as frozen also covers unparsable dates,
where the code returns Python `None` instead of a record — see the
counterexample below — so the record guarantee is conditional on parsing. -/
theorem c1_returns_record (book : String) (ds d : Date) (retries : ℕ)
    (prov : ℕ → ℤ × ℤ → FetchOutcome) (now : String)
    (hd : strptime ds = some d) (hr : 1 ≤ retries) :
    ((get_trends_data book ds retries prov now).1).isSome = true := by
  have := runAttempts_isSome prov (compute_windows (toDays d)).1 (compute_windows (toDays d)).2
    book ds now retries 0 { before_values := none, after_values := none } hr
  simpa [get_trends_data, hd, compute_windows] using this

/-- Witness for C1: a concrete call with a valid date whose provider raises
on every attempt still yields a record. -/
theorem c1_witness :
    ((get_trends_data "Gender Queer" ⟨2022, 9, 1⟩ 3
        (fun _ _ => FetchOutcome.raise "429") "t").1).isSome = true :=
  c1_returns_record "Gender Queer" ⟨2022, 9, 1⟩ ⟨2022, 9, 1⟩ 3
    (fun _ _ => FetchOutcome.raise "429") "t" (by decide) (by norm_num)

/-- Counterexample to C1 as frozen: on an unparsable event date (month 0)
the call returns `none` (Python `None`) — a call path that ends without a
returned ComparisonResult record. -/
theorem c1_cx_none_on_bad_date :
    (get_trends_data "The Bluest Eye" ⟨2023, 0, 10⟩ 3
      (fun _ _ => FetchOutcome.empty) "t").1 = none := rfl

/-- C2 (corrected): for every event-date text that does not parse in the
fixed `YYYY-MM-DD` format, collect returns immediately, makes zero provider
calls (the trace records no fetch) and consumes no retry attempt (no sleep,
no loop iteration) — but it returns Python `None`, not a failure
ComparisonResult carrying an error, as the frozen claim states. -/
theorem c2_unparsable_date_returns_none (book : String) (retries : ℕ)
    (prov : ℕ → ℤ × ℤ → FetchOutcome) (now : String) (ds : Date)
    (hds : strptime ds = none) :
    get_trends_data book ds retries prov now = (none, emptyTrace) := by
  simp [get_trends_data, hds]

/-- Witness for C2: the spec example date 2022-13-40. -/
theorem c2_witness :
    get_trends_data "Gender Queer" ⟨2022, 13, 40⟩ 3
      (fun _ _ => FetchOutcome.data [1]) "t" = (none, emptyTrace) :=
  c2_unparsable_date_returns_none "Gender Queer" 3 (fun _ _ => FetchOutcome.data [1]) "t"
    ⟨2022, 13, 40⟩ (by decide)

/-- Counterexample to C2 as frozen: on the unparsable date 2022-02-30 the
call returns `none`, so no failure ComparisonResult with an error field is
produced. -/
theorem c2_cx_no_failure_record :
    (get_trends_data "All Boys" ⟨2022, 2, 30⟩ 3
      (fun _ _ => FetchOutcome.raise "x") "t").1 = none := rfl

/-- C3 (code bug): evaluation of the code at the failing input. When the
provider returns an empty frame for every window, the intended zero-default
branch runs, but the `all_values` line then references the never-assigned
`before_values` local and raises `NameError`; the generic handler retries
(sleeps of 20 after the first and second attempts, visible in the trace)
and after three failed attempts a failure record carrying the `NameError`
text is returned — not the success record with zero statistics that the
claim (and the comment in the source) promises. -/
theorem c3_empty_frames_never_succeed :
    get_trends_data "The Bluest Eye" ⟨2022, 8, 20⟩ 3 (fun _ _ => FetchOutcome.empty) "t"
      = (some (failureRecord "The Bluest Eye" ⟨2022, 8, 20⟩ "t" nameErrorBefore),
         { fetches := [(toDays ⟨2022, 8, 20⟩ - 90, toDays ⟨2022, 8, 20⟩ - 1),
                       (toDays ⟨2022, 8, 20⟩ + 1, toDays ⟨2022, 8, 20⟩ + 90),
                       (toDays ⟨2022, 8, 20⟩ - 90, toDays ⟨2022, 8, 20⟩ - 1),
                       (toDays ⟨2022, 8, 20⟩ + 1, toDays ⟨2022, 8, 20⟩ + 90),
                       (toDays ⟨2022, 8, 20⟩ - 90, toDays ⟨2022, 8, 20⟩ - 1),
                       (toDays ⟨2022, 8, 20⟩ + 1, toDays ⟨2022, 8, 20⟩ + 90)],
           sleeps := [12, 20, 12, 20, 12] }) := rfl

/-- Counterexample to C4 as frozen: the values variable is not always
unassigned when a window's fetch returns an empty frame. Attempt 0 fetches
before-window data `[10]` (binding `before_values`) and then the after
fetch raises; attempt 1 gets an empty before frame, reuses the stale
`before_values` from attempt 0, and completes as a success record with
`max_search_before = 0` from the empty-frame default branch. -/
theorem c4_cx_stale_values_allow_success :
    ((get_trends_data "Maus" ⟨2022, 9, 1⟩ 3
        (fun att w =>
          if att = 0 then
            (if w.2 < toDays ⟨2022, 9, 1⟩ then FetchOutcome.data [10]
             else FetchOutcome.raise "timeout")
          else
            (if w.2 < toDays ⟨2022, 9, 1⟩ then FetchOutcome.empty
             else FetchOutcome.data [40]))
        "t").1.map (fun r => (r.collection_successful, r.max_search_before)))
      = some (true, some 0) := rfl

/-- C4 (amended): for every attempt in which a window's fetch returns an
empty frame and the corresponding values variable has not been assigned by
an earlier attempt of the same call, the attempt cannot produce a success
record; when control reaches the pooled-volatility expression, the unbound
name raises `NameError`, which the generic retry handler catches like a
retryable provider error. (An earlier attempt of the same call may have
assigned the variable, in which case the stale list is silently reused —
see the counterexample.) -/
theorem c4_unassigned_values_raise_NameError (wb wa : ℤ × ℤ) (fa : FetchOutcome)
    (book : String) (ds : Date) (now : String) (s : EngineSt)
    (hbv : s.before_values = none) :
    (∃ e, (runAttempt wb wa .empty fa book ds now s).2.2 = .error e)
    ∧ (∀ a av, fa = .data (a :: av) →
        (runAttempt wb wa .empty fa book ds now s).2.2 = .error nameErrorBefore)
    ∧ (∀ b bv, s.after_values = none →
        (runAttempt wb wa (.data (b :: bv)) .empty book ds now s).2.2
          = .error nameErrorAfter) := by
  rcases s with ⟨sbv, sav⟩
  simp only [] at hbv
  subst hbv
  refine ⟨?_, ?_, ?_⟩
  · rcases fa with e | _ | al
    · exact ⟨e, by simp [runAttempt, processWindow]⟩
    · exact ⟨nameErrorBefore, by simp [runAttempt, processWindow]⟩
    · rcases al with _ | ⟨a, al⟩
      · exact ⟨zeroSizeError, by simp [runAttempt, processWindow]⟩
      · exact ⟨nameErrorBefore, by simp [runAttempt, processWindow]⟩
  · intro a av hfa
    subst hfa
    simp [runAttempt, processWindow]
  · intro b bv hav
    rcases sav with _ | sa
    · simp [runAttempt, processWindow]
    · simp at hav

/-- Witness for C4: a concrete first attempt with an empty before frame
raises the before-values `NameError`. -/
theorem c4_witness :
    (runAttempt (0, 1) (2, 3) FetchOutcome.empty (FetchOutcome.data [1]) "b" ⟨2022, 9, 1⟩ "t"
      { before_values := none, after_values := none }).2.2 = .error nameErrorBefore :=
  (c4_unassigned_values_raise_NameError (0, 1) (2, 3) (FetchOutcome.data [1]) "b" ⟨2022, 9, 1⟩ "t"
    { before_values := none, after_values := none } rfl).2.1 1 [] rfl

/-- C5 (confirmed): for the change metrics of the attempt: if
`before_avg > 0` then `percent_change = ((after_avg - before_avg) /
before_avg) * 100` and `absolute_change = after_avg - before_avg`; if both
averages are 0 then `percent_change = 0`; if `before_avg = 0 < after_avg`
then `percent_change` is the infinity sentinel and `absolute_change =
after_avg`. -/
theorem c5_change_metrics (before_avg after_avg : ℚ) :
    (0 < before_avg →
      computeChanges before_avg after_avg
        = (.num (((after_avg - before_avg) / before_avg) * 100), after_avg - before_avg))
    ∧ (before_avg = 0 → after_avg = 0 →
      computeChanges before_avg after_avg = (.num 0, after_avg))
    ∧ (before_avg = 0 → 0 < after_avg →
      computeChanges before_avg after_avg = (.inf, after_avg)) := by
  refine ⟨?_, ?_, ?_⟩
  · intro h
    simp [computeChanges, h]
  · intro h1 h2
    subst h1; subst h2
    simp [computeChanges]
  · intro h1 h2
    subst h1
    simp [computeChanges, ne_of_gt h2]

/-- Witness for C5 at the spec scenario averages 20 and 50, and at the two
zero-average corner cases. -/
theorem c5_witness :
    computeChanges 20 50 = (.num (((50 - 20) / 20) * 100), 50 - 20)
    ∧ computeChanges 0 0 = (.num 0, 0)
    ∧ computeChanges 0 7 = (.inf, 7) :=
  ⟨(c5_change_metrics 20 50).1 (by norm_num),
   (c5_change_metrics 0 0).2.1 rfl rfl,
   (c5_change_metrics 0 7).2.2 rfl (by norm_num)⟩

/-- C6 (confirmed): for every valid event date, the computed windows are
`[D - 90, D - 1]` and `[D + 1, D + 90]` on the day line; both are exactly
90 days wide inclusive, they do not overlap, and the after-window start
minus the before-window end equals 2 days. -/
theorem c6_window_geometry (ds d : Date) (_hd : strptime ds = some d) :
    let t := toDays d
    let w := compute_windows t
    w.1 = (t - 90, t - 1) ∧ w.2 = (t + 1, t + 90)
    ∧ w.1.2 - w.1.1 + 1 = 90 ∧ w.2.2 - w.2.1 + 1 = 90
    ∧ w.1.2 < w.2.1
    ∧ w.2.1 - w.1.2 = 2 := by
  refine ⟨rfl, rfl, ?_, ?_, ?_, ?_⟩ <;> simp only [compute_windows] <;> omega

/-- Witness for C6 at the event date 2022-09-01. -/
theorem c6_witness :
    let t := toDays ⟨2022, 9, 1⟩
    let w := compute_windows t
    w.1 = (t - 90, t - 1) ∧ w.2 = (t + 1, t + 90)
    ∧ w.1.2 - w.1.1 + 1 = 90 ∧ w.2.2 - w.2.1 + 1 = 90
    ∧ w.1.2 < w.2.1
    ∧ w.2.1 - w.1.2 = 2 :=
  c6_window_geometry ⟨2022, 9, 1⟩ ⟨2022, 9, 1⟩ (by decide)

/-- C7 (confirmed): with a valid date and `max_attempts = n ≥ 1`: if the
provider raises on all `n` attempts, collect returns a failure record whose
error equals the final attempt's error, with numeric fields absent, after
`n` before-window fetches and `n - 1` backoff sleeps of 20; if it raises on
the first `k - 1` attempts and succeeds on attempt `k ≤ n`, the result is a
success record, the trace shows exactly `k - 1` backoff sleeps of 20 (plus
the single 12 sleep of the successful attempt) and every fetch of every
retry uses the same two windows computed once from the date. -/
theorem c7_retry_policy (book : String) (ds d : Date) (hd : strptime ds = some d)
    (n : ℕ) (hn : 1 ≤ n) (err : ℕ → String)
    (prov : ℕ → ℤ × ℤ → FetchOutcome) (now : String) :
    ((∀ j, j < n → prov j (toDays d - 90, toDays d - 1) = .raise (err j)) →
      get_trends_data book ds n prov now
        = (some (failureRecord book ds now (err (n - 1))),
           { fetches := List.replicate n (toDays d - 90, toDays d - 1),
             sleeps := List.replicate (n - 1) 20 })
      ∧ (failureRecord book ds now (err (n - 1))).avg_search_before = none
      ∧ (failureRecord book ds now (err (n - 1))).volatility = none
      ∧ (failureRecord book ds now (err (n - 1))).error = some (err (n - 1)))
    ∧ (∀ k, 1 ≤ k → k ≤ n →
        (∀ j, j < k - 1 → prov j (toDays d - 90, toDays d - 1) = .raise (err j)) →
        ∀ b bv a av,
          prov (k - 1) (toDays d - 90, toDays d - 1) = .data (b :: bv) →
          prov (k - 1) (toDays d + 1, toDays d + 90) = .data (a :: av) →
          ((get_trends_data book ds n prov now).1.map
              (fun r => r.collection_successful) = some true)
          ∧ (get_trends_data book ds n prov now).2
            = { fetches := List.replicate (k - 1) (toDays d - 90, toDays d - 1)
                  ++ [(toDays d - 90, toDays d - 1), (toDays d + 1, toDays d + 90)],
                sleeps := List.replicate (k - 1) 20 ++ [12] }) := by
  have hrun : get_trends_data book ds n prov now
      = runAttempts prov (toDays d - 90, toDays d - 1) (toDays d + 1, toDays d + 90)
          book ds now 0 n { before_values := none, after_values := none } := by
    simp [get_trends_data, hd, compute_windows]
  constructor
  · intro hall
    have h1 := runAttempts_all_raise prov (toDays d - 90, toDays d - 1)
      (toDays d + 1, toDays d + 90) book ds now err n 0
      { before_values := none, after_values := none } hn
      (fun j _ hj2 => hall j (by omega))
    have h0 : 0 + n - 1 = n - 1 := by omega
    rw [h0] at h1
    rw [hrun, h1]
    exact ⟨rfl, rfl, rfl, rfl⟩
  · intro k hk1 hkn hraise b bv a av hb ha
    have hb0 : prov (0 + k - 1) (toDays d - 90, toDays d - 1) = .data (b :: bv) := by
      have : 0 + k - 1 = k - 1 := by omega
      rw [this]; exact hb
    have ha0 : prov (0 + k - 1) (toDays d + 1, toDays d + 90) = .data (a :: av) := by
      have : 0 + k - 1 = k - 1 := by omega
      rw [this]; exact ha
    have h2 := runAttempts_raise_then_success prov (toDays d - 90, toDays d - 1)
      (toDays d + 1, toDays d + 90) book ds now err b a bv av k n 0
      { before_values := none, after_values := none } hk1 hkn
      (fun j _ hj2 => hraise j (by omega)) hb0 ha0
    rw [hrun, h2]
    exact ⟨by simp [mkSuccessRecord], rfl⟩

/-- Witness for C7: the spec scenario — transient errors on the first two
attempts, success on the third, with `max_attempts = 3`: success record and
exactly two backoff sleeps of 20. -/
theorem c7_witness :
    ((get_trends_data "Gender Queer" ⟨2022, 9, 1⟩ 3
        (fun j w => if j < 2 then FetchOutcome.raise "HTTP 429"
          else if w.2 < toDays ⟨2022, 9, 1⟩ then FetchOutcome.data [10, 20, 30]
          else FetchOutcome.data [40, 50, 60]) "t").1.map
        (fun r => r.collection_successful) = some true)
    ∧ (get_trends_data "Gender Queer" ⟨2022, 9, 1⟩ 3
        (fun j w => if j < 2 then FetchOutcome.raise "HTTP 429"
          else if w.2 < toDays ⟨2022, 9, 1⟩ then FetchOutcome.data [10, 20, 30]
          else FetchOutcome.data [40, 50, 60]) "t").2
      = { fetches := List.replicate 2 (toDays ⟨2022, 9, 1⟩ - 90, toDays ⟨2022, 9, 1⟩ - 1)
            ++ [(toDays ⟨2022, 9, 1⟩ - 90, toDays ⟨2022, 9, 1⟩ - 1),
                (toDays ⟨2022, 9, 1⟩ + 1, toDays ⟨2022, 9, 1⟩ + 90)],
          sleeps := List.replicate 2 20 ++ [12] } := by
  have h := (c7_retry_policy "Gender Queer" ⟨2022, 9, 1⟩ ⟨2022, 9, 1⟩ (by decide) 3
      (by norm_num) (fun _ => "HTTP 429")
      (fun j w => if j < 2 then FetchOutcome.raise "HTTP 429"
        else if w.2 < toDays ⟨2022, 9, 1⟩ then FetchOutcome.data [10, 20, 30]
        else FetchOutcome.data [40, 50, 60]) "t").2 3 (by norm_num) le_rfl
      (fun j hj => by simp only [if_pos (show j < 2 by omega)])
      10 [20, 30] 40 [50, 60]
      (by norm_num [toDays])
      (by norm_num [toDays])
  exact h

/-- C8 (confirmed): every record returned by collect satisfies: the
success flag is `true` iff all summary-statistic fields together with
`percent_change`, `absolute_change` and `volatility` are non-null, and the
flag is `false` iff all of those fields are null and an error string is
present — the numeric fields are never partially present. -/
theorem c8_all_or_nothing (book : String) (ds : Date) (retries : ℕ)
    (prov : ℕ → ℤ × ℤ → FetchOutcome) (now : String) (r : TrendsRecord)
    (h : (get_trends_data book ds retries prov now).1 = some r) :
    (r.collection_successful = true ↔
      (r.avg_search_before.isSome ∧ r.avg_search_after.isSome
        ∧ r.max_search_before.isSome ∧ r.max_search_after.isSome
        ∧ r.min_search_before.isSome ∧ r.min_search_after.isSome
        ∧ r.percent_change.isSome ∧ r.absolute_change.isSome ∧ r.volatility.isSome))
    ∧ (r.collection_successful = false ↔
      (r.avg_search_before = none ∧ r.avg_search_after = none
        ∧ r.max_search_before = none ∧ r.max_search_after = none
        ∧ r.min_search_before = none ∧ r.min_search_after = none
        ∧ r.percent_change = none ∧ r.absolute_change = none ∧ r.volatility = none
        ∧ r.error.isSome)) := by
  rcases hds : strptime ds with _ | d
  · rw [get_trends_data] at h
    simp only [hds] at h
    exact Option.noConfusion h
  · rw [get_trends_data] at h
    simp only [hds] at h
    rcases hrec : runAttempts prov (compute_windows (toDays d)).1 (compute_windows (toDays d)).2
        book ds now 0 retries { before_values := none, after_values := none } with ⟨rest, tr⟩
    rw [hrec] at h
    have hrest : rest = some r := h
    subst hrest
    rcases runAttempts_shape prov _ _ book ds now retries 0 _ r tr hrec with
      ⟨bst, ast, bvals, avals, rfl⟩ | ⟨e, rfl⟩
    · simp [mkSuccessRecord]
    · simp [failureRecord]

/-- Witness for C8 at a concrete run in which every attempt raises, so the
returned record is the failure record. -/
theorem c8_witness :
    ((failureRecord "b" ⟨2022, 9, 1⟩ "t" "boom").collection_successful = true ↔
      ((failureRecord "b" ⟨2022, 9, 1⟩ "t" "boom").avg_search_before.isSome
        ∧ (failureRecord "b" ⟨2022, 9, 1⟩ "t" "boom").avg_search_after.isSome
        ∧ (failureRecord "b" ⟨2022, 9, 1⟩ "t" "boom").max_search_before.isSome
        ∧ (failureRecord "b" ⟨2022, 9, 1⟩ "t" "boom").max_search_after.isSome
        ∧ (failureRecord "b" ⟨2022, 9, 1⟩ "t" "boom").min_search_before.isSome
        ∧ (failureRecord "b" ⟨2022, 9, 1⟩ "t" "boom").min_search_after.isSome
        ∧ (failureRecord "b" ⟨2022, 9, 1⟩ "t" "boom").percent_change.isSome
        ∧ (failureRecord "b" ⟨2022, 9, 1⟩ "t" "boom").absolute_change.isSome
        ∧ (failureRecord "b" ⟨2022, 9, 1⟩ "t" "boom").volatility.isSome))
    ∧ ((failureRecord "b" ⟨2022, 9, 1⟩ "t" "boom").collection_successful = false ↔
      ((failureRecord "b" ⟨2022, 9, 1⟩ "t" "boom").avg_search_before = none
        ∧ (failureRecord "b" ⟨2022, 9, 1⟩ "t" "boom").avg_search_after = none
        ∧ (failureRecord "b" ⟨2022, 9, 1⟩ "t" "boom").max_search_before = none
        ∧ (failureRecord "b" ⟨2022, 9, 1⟩ "t" "boom").max_search_after = none
        ∧ (failureRecord "b" ⟨2022, 9, 1⟩ "t" "boom").min_search_before = none
        ∧ (failureRecord "b" ⟨2022, 9, 1⟩ "t" "boom").min_search_after = none
        ∧ (failureRecord "b" ⟨2022, 9, 1⟩ "t" "boom").percent_change = none
        ∧ (failureRecord "b" ⟨2022, 9, 1⟩ "t" "boom").absolute_change = none
        ∧ (failureRecord "b" ⟨2022, 9, 1⟩ "t" "boom").volatility = none
        ∧ (failureRecord "b" ⟨2022, 9, 1⟩ "t" "boom").error.isSome)) :=
  c8_all_or_nothing "b" ⟨2022, 9, 1⟩ 3 (fun _ _ => FetchOutcome.raise "boom") "t"
    (failureRecord "b" ⟨2022, 9, 1⟩ "t" "boom") rfl

/-- C9 (confirmed): for every successful attempt on fetched data, the
volatility field is the (rounded) standard deviation of the pooled list of
before-window and after-window observations, and the volatility expression
yields 0 on an empty pooled list; in particular, for before scores
`[10, 20, 30]` and after scores `[40, 50, 60]` at event date 2022-09-01 the
record has `before_avg = 20`, `after_avg = 50`, `percent_change = 150`,
`absolute_change = 30` and `volatility = 17.08` (the rounding of
`stddev [10, 20, 30, 40, 50, 60] = sqrt (875/3) ≈ 17.078`). -/
theorem c9_volatility_is_pooled_std (b a : ℚ) (bv av : List ℚ) :
    (∀ (wb wa : ℤ × ℤ) (book : String) (ds : Date) (now : String) (s : EngineSt),
      ((runAttempt wb wa (.data (b :: bv)) (.data (a :: av)) book ds now s).2.2.toOption.map
          (fun r => r.volatility))
        = some (some (pyRound2R (npStd ((b :: bv) ++ (a :: av))))))
    ∧ computeVolatility [] = 0
    ∧ ((get_trends_data "Example Book" ⟨2022, 9, 1⟩ 3
          (fun _ w => if w.2 < toDays ⟨2022, 9, 1⟩ then FetchOutcome.data [10, 20, 30]
            else FetchOutcome.data [40, 50, 60]) "t").1.map
        (fun r => (r.avg_search_before, r.avg_search_after, r.percent_change,
                   r.absolute_change, r.volatility)))
      = some (some 20, some 50, some (.num 150), some 30, some ((1708 : ℝ) / 100)) := by
  refine ⟨?_, ?_, ?_⟩
  · intro wb wa book ds now s
    rw [runAttempt_data_data]
    simp [Except.toOption, mkSuccessRecord, computeVolatility]
  · simp [computeVolatility]
  · have hrec : (get_trends_data "Example Book" ⟨2022, 9, 1⟩ 3
          (fun _ w => if w.2 < toDays ⟨2022, 9, 1⟩ then FetchOutcome.data [10, 20, 30]
            else FetchOutcome.data [40, 50, 60]) "t").1
        = some (mkSuccessRecord "Example Book" ⟨2022, 9, 1⟩ "t"
            { avg := npMean [10, 20, 30], max := npMax [10, 20, 30], min := npMin [10, 20, 30] }
            { avg := npMean [40, 50, 60], max := npMax [40, 50, 60], min := npMin [40, 50, 60] }
            [10, 20, 30] [40, 50, 60]) := rfl
    rw [hrec]
    have hm1 : npMean [10, 20, 30] = 20 := by norm_num [npMean]
    have hm2 : npMean [40, 50, 60] = 50 := by norm_num [npMean]
    have hcc : computeChanges 20 50 = (.num 150, 30) := by norm_num [computeChanges]
    have hr20 : pyRound2 20 = 20 := by have := pyRound2_int 20; norm_num at this; exact this
    have hr50 : pyRound2 50 = 50 := by have := pyRound2_int 50; norm_num at this; exact this
    have hr150 : pyRound2 150 = 150 := by
      have := pyRound2_int 150; norm_num at this; exact this
    have hr30 : pyRound2 30 = 30 := by have := pyRound2_int 30; norm_num at this; exact this
    have hvol : pyRound2R (computeVolatility ([10, 20, 30] ++ [40, 50, 60])) = 1708 / 100 := by
      have hlist : ([10, 20, 30] ++ [40, 50, 60] : List ℚ) = [10, 20, 30, 40, 50, 60] := rfl
      rw [hlist, computeVolatility, if_pos (by simp)]
      have hv : npVar [10, 20, 30, 40, 50, 60] = 875 / 3 := by norm_num [npVar, npMean]
      rw [npStd, hv]
      have hcast : (((875 / 3 : ℚ)) : ℝ) = 875 / 3 := by norm_num
      rw [hcast]
      have hs1 : (17075 / 1000 : ℝ) < Real.sqrt (875 / 3) := by
        rw [Real.lt_sqrt (by norm_num)]
        norm_num
      have hs2 : Real.sqrt (875 / 3) < 1708 / 100 := by
        rw [Real.sqrt_lt' (by norm_num)]
        norm_num
      have h1 : ((1707 : ℤ) : ℝ) + 1 / 2 < Real.sqrt (875 / 3) * 100 := by
        push_cast
        nlinarith [hs1]
      have h2 : Real.sqrt (875 / 3) * 100 < ((1707 : ℤ) : ℝ) + 1 := by
        push_cast
        nlinarith [hs2]
      rw [pyRound2R_eq_high (Real.sqrt (875 / 3)) 1707 h1 h2]
      norm_num
    simp only [Option.map_some, mkSuccessRecord, hm1, hm2, hcc, pyRoundPC,
      hr20, hr50, hr150, hr30, hvol]
    rfl

/-- C10 (amended): every success record has `success = true`, a collection
timestamp, and its averages, `percent_change`, `absolute_change` and
volatility rounded to 2 decimal places (each is a fixed point of the
rounding); the maxima and minima, however, are stored exactly as computed,
without rounding — the frozen claim says they too are rounded, which the
counterexample below refutes with a provider score of 1/3. -/
theorem c10_success_fields_rounding (wb wa : ℤ × ℤ) (book : String) (ds : Date)
    (now : String) (s : EngineSt) (b a : ℚ) (bv av : List ℚ) (r : TrendsRecord)
    (h : (runAttempt wb wa (.data (b :: bv)) (.data (a :: av)) book ds now s).2.2 = .ok r) :
    r.collection_successful = true
    ∧ r.data_collected = now
    ∧ (∃ v, r.avg_search_before = some v ∧ pyRound2 v = v)
    ∧ (∃ v, r.avg_search_after = some v ∧ pyRound2 v = v)
    ∧ (∃ p, r.percent_change = some p ∧ pyRoundPC p = p)
    ∧ (∃ v, r.absolute_change = some v ∧ pyRound2 v = v)
    ∧ (∃ x, r.volatility = some x ∧ pyRound2R x = x)
    ∧ r.max_search_before = some (npMax (b :: bv))
    ∧ r.max_search_after = some (npMax (a :: av))
    ∧ r.min_search_before = some (npMin (b :: bv))
    ∧ r.min_search_after = some (npMin (a :: av)) := by
  rw [runAttempt_data_data] at h
  injection h with h
  subst h
  exact ⟨rfl, rfl, ⟨_, rfl, pyRound2_idem _⟩, ⟨_, rfl, pyRound2_idem _⟩,
    ⟨_, rfl, pyRoundPC_idem _⟩, ⟨_, rfl, pyRound2_idem _⟩, ⟨_, rfl, pyRound2R_idem _⟩,
    rfl, rfl, rfl, rfl⟩

/-- Witness for C10 at a concrete successful attempt. -/
theorem c10_witness :
    (mkSuccessRecord "b" ⟨2022, 9, 1⟩ "t"
        { avg := npMean [10], max := npMax [10], min := npMin [10] }
        { avg := npMean [40], max := npMax [40], min := npMin [40] }
        [10] [40]).collection_successful = true
    ∧ (∃ v, (mkSuccessRecord "b" ⟨2022, 9, 1⟩ "t"
        { avg := npMean [10], max := npMax [10], min := npMin [10] }
        { avg := npMean [40], max := npMax [40], min := npMin [40] }
        [10] [40]).avg_search_before = some v ∧ pyRound2 v = v) := by
  have h := c10_success_fields_rounding (0, 1) (2, 3) "b" ⟨2022, 9, 1⟩ "t"
    { before_values := none, after_values := none } 10 40 [] []
    (mkSuccessRecord "b" ⟨2022, 9, 1⟩ "t"
      { avg := npMean [10], max := npMax [10], min := npMin [10] }
      { avg := npMean [40], max := npMax [40], min := npMin [40] }
      [10] [40]) rfl
  exact ⟨h.1, h.2.2.1⟩

/-- Counterexample to C10 as frozen: with provider score `1/3` for both
windows, the success record stores `max_search_before = 1/3`, which is not
rounded to 2 decimal places (`round2 (1/3) = 0.33 ≠ 1/3`). -/
theorem c10_cx_max_not_rounded :
    ((get_trends_data "b" ⟨2022, 9, 1⟩ 3 (fun _ _ => FetchOutcome.data [1 / 3]) "t").1.map
        (fun r => r.max_search_before)) = some (some (npMax [1 / 3]))
    ∧ npMax [1 / 3] = 1 / 3
    ∧ pyRound2 (1 / 3) ≠ 1 / 3 := by
  refine ⟨rfl, by simp [npMax], ?_⟩
  rw [pyRound2_eq_low (1 / 3) 33 (by norm_num) (by norm_num)]
  norm_num
